import Mathlib

/-!
Shallow embedding of the IndieLog job execution core: the publisher
retry/fan-out engine (src/publisher/base.ts, src/publisher/manager.ts),
the AI provider chain (AIProviderLoader), the job queue
(src/jobs/queue.ts) and the job runner (src/jobs/runner.ts).
Effectful TypeScript methods become pure Lean functions over explicit
collaborator records; mutable state becomes explicit state passing; the
publish retry loop additionally returns an instrumentation trace (number
of publishContent attempts and the list of sleep durations performed, in
order) so that attempt-count and backoff claims can be stated.
-/

namespace IndieLog

/-- Per-platform publisher configuration (base.ts `PublisherConfig`):
enabled flag plus optional maxRetries / retryDelay overrides. -/
structure PublisherConfig where
  enabled : Bool
  maxRetries : Option Nat
  retryDelay : Option Nat
deriving DecidableEq, Repr

/-- Result of one platform publish call (base.ts `PublishResult`). -/
structure PublishResult where
  success : Bool
  platform : String
  url : Option String
  error : Option String
  retries : Option Nat
deriving DecidableEq, Repr

/-- A publisher instance (base.ts abstract class `Publisher`): platform
name, its config, the subclass's `validateConfig` answer, and the
subclass's `publishContent` behaviour, indexed by attempt number (the
k-th invocation returns the k-th outcome). -/
structure Publisher where
  name : String
  platform : String
  config : PublisherConfig
  validateConfig : Bool
  publishContent : Nat → Except String String

/-- The retry loop of base.ts `publish` (lines 74-119), starting at a
given attempt index. The TypeScript guard `attempt < maxRetries` is
represented structurally by `remaining = maxRetries - attempt`: the loop
retries while `remaining > 0`. Returns the PublishResult together with
the number of `publishContent` invocations performed and the list of
sleep durations performed, in order. A failed attempt with retries left
sleeps `retryDelay * (attempt + 1)` ms and recurses. -/
def publishLoop (pc : Nat → Except String String) (platform : String)
    (retryDelay : Nat) (maxRetries : Nat) :
    Nat → Nat → PublishResult × Nat × List Nat
  | attempt, remaining =>
    match pc attempt with
    | Except.ok url =>
        (⟨true, platform, some url, none, some attempt⟩, 1, [])
    | Except.error e =>
        match remaining with
        | 0 => (⟨false, platform, none, some e, some maxRetries⟩, 1, [])
        | Nat.succ r =>
            let rest := publishLoop pc platform retryDelay maxRetries (attempt + 1) r
            (rest.1, rest.2.1 + 1, retryDelay * (attempt + 1) :: rest.2.2)

/-- base.ts `Publisher.publish`: disabled and invalid-config publishers
return immediately with zero attempts; otherwise the retry loop runs
with `maxRetries` defaulting to 3 and `retryDelay` defaulting to 1000. -/
def Publisher.publish (p : Publisher) : PublishResult × Nat × List Nat :=
  if p.config.enabled = false then
    (⟨false, p.platform, none, some "Publisher is disabled", none⟩, 0, [])
  else if p.validateConfig = false then
    (⟨false, p.platform, none, some "Invalid configuration or missing credentials", none⟩, 0, [])
  else
    publishLoop p.publishContent p.platform (p.config.retryDelay.getD 1000)
      (p.config.maxRetries.getD 3) 0 (p.config.maxRetries.getD 3)

theorem publishLoop_success (pc : Nat → Except String String)
    (platform : String) (d m : Nat) (a r k : Nat) (url : String)
    (hr : a + r = m) (hak : a ≤ k) (hkm : k ≤ m)
    (hfail : ∀ j, a ≤ j → j < k → ∃ e, pc j = Except.error e)
    (hok : pc k = Except.ok url) :
    publishLoop pc platform d m a r =
      (⟨true, platform, some url, none, some k⟩, k + 1 - a,
        (List.range' (a + 1) (k - a)).map (fun i => d * i)) := by
  induction r generalizing a with
  | zero =>
    have hak2 : a = k := by omega
    subst hak2
    rw [publishLoop, hok]
    simp
  | succ n ih =>
    rcases Nat.eq_or_lt_of_le hak with rfl | hlt
    · rw [publishLoop, hok]
      simp
    · obtain ⟨e, he⟩ := hfail a (Nat.le_refl a) hlt
      rw [publishLoop, he]
      dsimp only
      have hrec := ih (a + 1) (by omega) hlt (fun j hj1 hj2 => hfail j (by omega) hj2)
      rw [hrec]
      have h1 : k + 1 - a = (k + 1 - (a + 1)) + 1 := by omega
      have h2 : k - a = (k - (a + 1)) + 1 := by omega
      rw [h1, h2, List.range'_succ]
      simp [Nat.mul_comm]

theorem publishLoop_exhaust (pc : Nat → Except String String)
    (platform : String) (d m : Nat) (a r : Nat) (e : String)
    (hr : a + r = m)
    (hfail : ∀ j, a ≤ j → j < m → ∃ e2, pc j = Except.error e2)
    (hlast : pc m = Except.error e) :
    publishLoop pc platform d m a r =
      (⟨false, platform, none, some e, some m⟩, m + 1 - a,
        (List.range' (a + 1) (m - a)).map (fun i => d * i)) := by
  induction r generalizing a with
  | zero =>
    have ham2 : a = m := by omega
    subst ham2
    rw [publishLoop, hlast]
    simp
  | succ n ih =>
    have hlt : a < m := by omega
    obtain ⟨e2, he2⟩ := hfail a (Nat.le_refl a) hlt
    rw [publishLoop, he2]
    dsimp only
    have hrec := ih (a + 1) (by omega) (fun j hj1 hj2 => hfail j (by omega) hj2)
    rw [hrec]
    have h1 : m + 1 - a = (m + 1 - (a + 1)) + 1 := by omega
    have h2 : m - a = (m - (a + 1)) + 1 := by omega
    rw [h1, h2, List.range'_succ]
    simp [Nat.mul_comm]

/-- C6: for every enabled, valid-config publisher, `publish` attempts
`publishContent` at most maxRetries+1 times; if the k-th attempt
(0-indexed) is the first success it returns success with retries = k and
the returned URL after exactly k+1 attempts; if all maxRetries+1
attempts fail it returns failure with retries = maxRetries and the last
error's message after exactly maxRetries+1 attempts. -/
theorem publish_retry_contract (p : Publisher)
    (hen : p.config.enabled = true) (hv : p.validateConfig = true) :
    (∀ k url, k ≤ p.config.maxRetries.getD 3 →
      (∀ j, j < k → ∃ e, p.publishContent j = Except.error e) →
      p.publishContent k = Except.ok url →
      p.publish.1 = ⟨true, p.platform, some url, none, some k⟩ ∧
        p.publish.2.1 = k + 1) ∧
    (∀ e, (∀ j, j < p.config.maxRetries.getD 3 → ∃ e2, p.publishContent j = Except.error e2) →
      p.publishContent (p.config.maxRetries.getD 3) = Except.error e →
      p.publish.1 = ⟨false, p.platform, none, some e, some (p.config.maxRetries.getD 3)⟩ ∧
        p.publish.2.1 = p.config.maxRetries.getD 3 + 1) := by
  constructor
  · intro k url hk hfail hok
    rw [Publisher.publish]
    simp only [hen, hv]
    rw [publishLoop_success p.publishContent p.platform (p.config.retryDelay.getD 1000)
      (p.config.maxRetries.getD 3) 0 (p.config.maxRetries.getD 3) k url (by omega)
      (Nat.zero_le k) hk (fun j hj1 hj2 => hfail j hj2) hok]
    simp
  · intro e hfail hlast
    rw [Publisher.publish]
    simp only [hen, hv]
    rw [publishLoop_exhaust p.publishContent p.platform (p.config.retryDelay.getD 1000)
      (p.config.maxRetries.getD 3) 0 (p.config.maxRetries.getD 3) e (by omega)
      (fun j hj1 hj2 => hfail j hj2) hlast]
    simp

/-- A concrete publisher whose adapter fails twice then succeeds,
used to witness the retry contract on the spec scenario. -/
def retryDemoPub : Publisher :=
  { name := "X Publisher", platform := "X",
    config := ⟨true, some 3, some 1000⟩, validateConfig := true,
    publishContent := fun n =>
      if n < 2 then Except.error "boom" else Except.ok "https://x.example/1" }

/-- Witness for C6: the fails-twice-then-succeeds adapter yields
success with retries = 2 after exactly 3 attempts. -/
theorem publish_retry_contract_witness :
    retryDemoPub.publish.1 =
      ⟨true, "X", some "https://x.example/1", none, some 2⟩ ∧
    retryDemoPub.publish.2.1 = 3 :=
  (publish_retry_contract retryDemoPub rfl rfl).1 2 "https://x.example/1"
    (by decide) (fun j hj => ⟨"boom", by simp [retryDemoPub, hj]⟩) rfl

/-- C7: in the publisher retry loop, every failed attempt except the
last is followed by a wait of exactly retryDelay * (attemptIndex + 1)
milliseconds (attemptIndex 0-based, retryDelay defaulting to 1000), and
no wait occurs after the final attempt's failure: the recorded sleep
schedule is [d*1, ..., d*k] when the first success is at attempt k, and
[d*1, ..., d*maxRetries] on exhaustion (maxRetries+1 failures but only
maxRetries waits). -/
theorem publish_backoff_schedule (p : Publisher)
    (hen : p.config.enabled = true) (hv : p.validateConfig = true) :
    (∀ k url, k ≤ p.config.maxRetries.getD 3 →
      (∀ j, j < k → ∃ e, p.publishContent j = Except.error e) →
      p.publishContent k = Except.ok url →
      p.publish.2.2 =
        (List.range' 1 k).map (fun i => p.config.retryDelay.getD 1000 * i)) ∧
    (∀ e, (∀ j, j < p.config.maxRetries.getD 3 → ∃ e2, p.publishContent j = Except.error e2) →
      p.publishContent (p.config.maxRetries.getD 3) = Except.error e →
      p.publish.2.2 =
        (List.range' 1 (p.config.maxRetries.getD 3)).map
          (fun i => p.config.retryDelay.getD 1000 * i) ∧
      p.publish.2.2.length = p.config.maxRetries.getD 3) := by
  constructor
  · intro k url hk hfail hok
    rw [Publisher.publish]
    simp only [hen, hv]
    rw [publishLoop_success p.publishContent p.platform (p.config.retryDelay.getD 1000)
      (p.config.maxRetries.getD 3) 0 (p.config.maxRetries.getD 3) k url (by omega)
      (Nat.zero_le k) hk (fun j hj1 hj2 => hfail j hj2) hok]
    simp
  · intro e hfail hlast
    rw [Publisher.publish]
    simp only [hen, hv]
    rw [publishLoop_exhaust p.publishContent p.platform (p.config.retryDelay.getD 1000)
      (p.config.maxRetries.getD 3) 0 (p.config.maxRetries.getD 3) e (by omega)
      (fun j hj1 hj2 => hfail j hj2) hlast]
    simp

/-- A concrete publisher whose adapter always fails, with maxRetries 3
and retryDelay 500, used to witness the backoff schedule. -/
def backoffDemoPub : Publisher :=
  { name := "Reddit Publisher", platform := "Reddit",
    config := ⟨true, some 3, some 500⟩, validateConfig := true,
    publishContent := fun _ => Except.error "api down" }

/-- Witness for C7: the always-failing adapter with retryDelay 500 and
maxRetries 3 sleeps exactly [500, 1000, 1500]: three waits for four
failed attempts, none after the last. -/
theorem publish_backoff_schedule_witness :
    backoffDemoPub.publish.2.2 =
      (List.range' 1 3).map (fun i => 500 * i) ∧
    backoffDemoPub.publish.2.2.length = 3 :=
  (publish_backoff_schedule backoffDemoPub rfl rfl).2 "api down"
    (fun _ _ => ⟨"api down", rfl⟩) rfl

/-- The per-platform section of the loaded configuration
(manager.ts reads `config.publishers.x / .reddit / .bluesky`). -/
structure PublishersConfig where
  x : Option PublisherConfig
  reddit : Option PublisherConfig
  bluesky : Option PublisherConfig
deriving DecidableEq, Repr

/-- The behaviour a concrete adapter subclass contributes (XPublisher /
RedditPublisher / BlueskyPublisher): its names, its `validateConfig`
answer and its `publishContent` outcomes per attempt. -/
structure PlatformAdapter where
  name : String
  platform : String
  validateConfig : Bool
  publishContent : Nat → Except String String

/-- Constructing a publisher instance from an adapter and a config
(the `new XPublisher(publishers.x)` calls in manager.ts). -/
def mkPublisher (a : PlatformAdapter) (cfg : PublisherConfig) : Publisher :=
  ⟨a.name, a.platform, cfg, a.validateConfig, a.publishContent⟩

/-- One platform's branch of manager.ts `loadPublishers` (lines 32-68):
the publisher is pushed only when its config section is present, its
`enabled` flag is set, and `validateConfig()` reports true. -/
def loadOne (a : PlatformAdapter) (c : Option PublisherConfig) : List Publisher :=
  match c with
  | some cfg => if cfg.enabled && a.validateConfig then [mkPublisher a cfg] else []
  | none => []

/-- manager.ts `loadPublishers`: X, then Reddit, then Bluesky. -/
def loadPublishers (cfg : PublishersConfig) (xA redditA blueskyA : PlatformAdapter) :
    List Publisher :=
  loadOne xA cfg.x ++ loadOne redditA cfg.reddit ++ loadOne blueskyA cfg.bluesky

/-- manager.ts `publishAll` (lines 80-100): every loaded publisher's
`publish` result, one per loaded publisher, input order preserved. -/
def publishAll (pubs : List Publisher) : List PublishResult :=
  pubs.map (fun p => p.publish.1)

/-- Total number of `publishContent` attempts performed across one
fan-out, read off the instrumentation component of `publish`. -/
def publishAllAttempts (pubs : List Publisher) : Nat :=
  (pubs.map (fun p => p.publish.2.1)).sum

/-- A fan-out scenario with three configured platforms: X enabled with
an always-failing adapter, Reddit administratively disabled, Bluesky
enabled with an always-succeeding adapter. -/
def fanoutCfg : PublishersConfig :=
  ⟨some ⟨true, some 0, some 0⟩, some ⟨false, some 3, some 1000⟩, some ⟨true, some 0, some 0⟩⟩

/-- The always-failing X adapter of the fan-out scenario. -/
def xFailAdapter : PlatformAdapter :=
  ⟨"X Publisher", "X", true, fun _ => Except.error "x down"⟩

/-- The Reddit adapter of the fan-out scenario (valid credentials). -/
def redditDemoAdapter : PlatformAdapter :=
  ⟨"Reddit Publisher", "Reddit", true, fun _ => Except.ok "https://reddit.example/1"⟩

/-- The always-succeeding Bluesky adapter of the fan-out scenario. -/
def blueskyOkAdapter : PlatformAdapter :=
  ⟨"Bluesky Publisher", "Bluesky", true, fun _ => Except.ok "https://bsky.example/1"⟩

/-- Counterexample to C2: in the three-platform scenario (one disabled,
one always failing, one always succeeding) `publishAll` returns exactly
two results, not three — the disabled platform yields no result at all
(it is filtered out at load time), rather than an immediate
success:false result. -/
theorem publishAll_drops_disabled :
    (publishAll (loadPublishers fanoutCfg xFailAdapter redditDemoAdapter blueskyOkAdapter)).length = 2 ∧
    ¬ (publishAll (loadPublishers fanoutCfg xFailAdapter redditDemoAdapter blueskyOkAdapter)).length = 3 ∧
    (publishAll (loadPublishers fanoutCfg xFailAdapter redditDemoAdapter blueskyOkAdapter)).map
      PublishResult.platform = ["X", "Bluesky"] := by
  refine ⟨rfl, ?_, rfl⟩
  decide

/-- C2 as amended: `publishAll` always resolves with exactly one
PublishResult per loaded publisher (enabled with valid config), and an
administratively disabled platform is excluded at load time — it yields
no result and consumes zero publish attempts, the load outcome being
identical to that of a configuration without the platform. In the
three-platform scenario (one disabled, one always failing, one always
succeeding) `publishAll` returns exactly two results. -/
theorem publishAll_per_loaded_platform :
    (∀ pubs : List Publisher, (publishAll pubs).length = pubs.length) ∧
    (∀ (cfg : PublishersConfig) (xA rA bA : PlatformAdapter) (c : PublisherConfig),
      cfg.reddit = some c → c.enabled = false →
      loadPublishers cfg xA rA bA = loadPublishers ⟨cfg.x, none, cfg.bluesky⟩ xA rA bA) ∧
    (∀ (cfg : PublishersConfig) (xA rA bA : PlatformAdapter) (c : PublisherConfig),
      cfg.x = some c → c.enabled = false →
      loadPublishers cfg xA rA bA = loadPublishers ⟨none, cfg.reddit, cfg.bluesky⟩ xA rA bA) ∧
    (publishAll (loadPublishers fanoutCfg xFailAdapter redditDemoAdapter blueskyOkAdapter)).length = 2 ∧
    publishAllAttempts (loadPublishers fanoutCfg xFailAdapter redditDemoAdapter blueskyOkAdapter) = 2 := by
  refine ⟨?_, ?_, ?_, rfl, rfl⟩
  · intro pubs
    simp [publishAll]
  · intro cfg xA rA bA c hc hen
    simp [loadPublishers, loadOne, hc, hen]
  · intro cfg xA rA bA c hc hen
    simp [loadPublishers, loadOne, hc, hen]

/-- Witness for C2 as amended: instantiating the universal parts at the
concrete fan-out scenario. -/
theorem publishAll_per_loaded_platform_witness :
    (publishAll (loadPublishers fanoutCfg xFailAdapter redditDemoAdapter blueskyOkAdapter)).length =
      (loadPublishers fanoutCfg xFailAdapter redditDemoAdapter blueskyOkAdapter).length ∧
    loadPublishers fanoutCfg xFailAdapter redditDemoAdapter blueskyOkAdapter =
      loadPublishers ⟨fanoutCfg.x, none, fanoutCfg.bluesky⟩ xFailAdapter redditDemoAdapter blueskyOkAdapter :=
  ⟨publishAll_per_loaded_platform.1 (loadPublishers fanoutCfg xFailAdapter redditDemoAdapter blueskyOkAdapter),
   publishAll_per_loaded_platform.2.1 fanoutCfg xFailAdapter redditDemoAdapter blueskyOkAdapter
     ⟨false, some 3, some 1000⟩ rfl rfl⟩

/-- AIResponse (ai/provider.ts): generated content with model and
provider identification. -/
structure AIResponse where
  content : String
  model : String
  provider : String
deriving DecidableEq, Repr

/-- An AI provider (ai/provider.ts `AIProvider`): its name, whether it
reports itself configured, and the outcome of one generation call. -/
structure AIProvider where
  name : String
  isConfigured : Bool
  generate : Except String AIResponse

/-- The provider chain state (ai/ai.ts `AIProviderLoader`): the primary
provider plus the registered fallback providers, in order. -/
structure AIProviderLoader where
  primaryProvider : AIProvider
  fallbackProviders : List AIProvider

/-- ai/ai.ts `addFallback` (lines 243-248): a fallback is registered
only when it reports itself configured. -/
def addFallback (loader : AIProviderLoader) (p : AIProvider) : AIProviderLoader :=
  if p.isConfigured then
    { loader with fallbackProviders := loader.fallbackProviders ++ [p] }
  else loader

/-- The fallback loop of ai/ai.ts `generateDevlog` (lines 186-202):
fallbacks are tried in registration order, stopping at the first
success; when every fallback fails the aggregated error carries the
primary provider's error message. Also returns the list of provider
names attempted, in order. -/
def tryFallbacks (fallbacks : List AIProvider) (primaryError : String) :
    Except String AIResponse × List String :=
  match fallbacks with
  | [] => (Except.error ("All AI providers failed. Last error: " ++ primaryError), [])
  | f :: rest =>
    match f.generate with
    | Except.ok r => (Except.ok r, [f.name])
    | Except.error _ =>
        let next := tryFallbacks rest primaryError
        (next.1, f.name :: next.2)

/-- ai/ai.ts `generateDevlog` (lines 175-204): the primary provider is
attempted first; only on its failure is the fallback loop entered. The
second component is the list of provider names attempted, in order. -/
def generateDevlog (loader : AIProviderLoader) : Except String AIResponse × List String :=
  match loader.primaryProvider.generate with
  | Except.ok r => (Except.ok r, [loader.primaryProvider.name])
  | Except.error e =>
      let next := tryFallbacks loader.fallbackProviders e
      (next.1, loader.primaryProvider.name :: next.2)

theorem tryFallbacks_first_success (pre : List AIProvider) (p : AIProvider)
    (rest : List AIProvider) (primaryError : String) (r : AIResponse)
    (hpre : ∀ q ∈ pre, ∃ eq, q.generate = Except.error eq)
    (hp : p.generate = Except.ok r) :
    tryFallbacks (pre ++ p :: rest) primaryError =
      (Except.ok r, pre.map AIProvider.name ++ [p.name]) := by
  induction pre with
  | nil =>
    rw [List.nil_append, tryFallbacks, hp]
    simp
  | cons q qs ih =>
    obtain ⟨eq, heq⟩ := hpre q (List.mem_cons_self q qs)
    rw [List.cons_append, tryFallbacks, heq]
    dsimp only
    rw [ih (fun q2 hq2 => hpre q2 (List.mem_cons_of_mem q hq2))]
    simp

theorem tryFallbacks_all_fail (fallbacks : List AIProvider) (primaryError : String)
    (hfail : ∀ q ∈ fallbacks, ∃ eq, q.generate = Except.error eq) :
    tryFallbacks fallbacks primaryError =
      (Except.error ("All AI providers failed. Last error: " ++ primaryError),
        fallbacks.map AIProvider.name) := by
  induction fallbacks with
  | nil => rfl
  | cons q qs ih =>
    obtain ⟨eq, heq⟩ := hfail q (List.mem_cons_self q qs)
    rw [tryFallbacks, heq]
    dsimp only
    rw [ih (fun q2 hq2 => hfail q2 (List.mem_cons_of_mem q hq2))]
    simp

/-- C5: the primary provider is attempted first and exactly once — on
its success nothing else runs and its response is returned; on its
failure the registered fallbacks are attempted in registration order,
stopping at the first success and returning that provider's response;
`addFallback` registers a provider only when it reports itself
configured; and when the primary and every fallback fail, a single
aggregated error is raised whose message carries the primary's error. -/
theorem generateDevlog_fallback_chain (loader : AIProviderLoader) :
    (∀ r, loader.primaryProvider.generate = Except.ok r →
      generateDevlog loader = (Except.ok r, [loader.primaryProvider.name])) ∧
    (∀ e pre p rest r, loader.primaryProvider.generate = Except.error e →
      loader.fallbackProviders = pre ++ p :: rest →
      (∀ q ∈ pre, ∃ eq, q.generate = Except.error eq) →
      p.generate = Except.ok r →
      generateDevlog loader =
        (Except.ok r, loader.primaryProvider.name :: (pre.map AIProvider.name ++ [p.name]))) ∧
    (∀ e, loader.primaryProvider.generate = Except.error e →
      (∀ q ∈ loader.fallbackProviders, ∃ eq, q.generate = Except.error eq) →
      generateDevlog loader =
        (Except.error ("All AI providers failed. Last error: " ++ e),
          loader.primaryProvider.name :: loader.fallbackProviders.map AIProvider.name)) ∧
    (∀ p, (p.isConfigured = true →
        (addFallback loader p).fallbackProviders = loader.fallbackProviders ++ [p] ∧
        (addFallback loader p).primaryProvider = loader.primaryProvider) ∧
      (p.isConfigured = false → addFallback loader p = loader)) := by
  refine ⟨?_, ?_, ?_, ?_⟩
  · intro r hr
    rw [generateDevlog, hr]
  · intro e pre p rest r he hsplit hpre hp
    rw [generateDevlog, he]
    dsimp only
    rw [hsplit, tryFallbacks_first_success pre p rest e r hpre hp]
  · intro e he hfail
    rw [generateDevlog, he]
    dsimp only
    rw [tryFallbacks_all_fail loader.fallbackProviders e hfail]
  · intro p
    constructor
    · intro hc
      rw [addFallback, hc]
      exact ⟨rfl, rfl⟩
    · intro hc
      rw [addFallback, hc]
      simp

/-- The spec scenario primary provider: always throwing. -/
def primaryDownProvider : AIProvider :=
  ⟨"openai", true, Except.error "rate limited"⟩

/-- The spec scenario first fallback: configured but throwing. -/
def fallbackOneProvider : AIProvider :=
  ⟨"claude", true, Except.error "overloaded"⟩

/-- The spec scenario second fallback: configured and succeeding. -/
def fallbackTwoProvider : AIProvider :=
  ⟨"llama", true, Except.ok ⟨"shipped the thing", "llama2", "llama"⟩⟩

/-- The spec scenario chain: failing primary with two fallbacks, the
first failing and the second succeeding. -/
def demoLoader : AIProviderLoader :=
  ⟨primaryDownProvider, [fallbackOneProvider, fallbackTwoProvider]⟩

/-- Witness for C5: on the spec scenario the chain returns the second
fallback's response, having attempted primary, first fallback, second
fallback, in that order. -/
theorem generateDevlog_fallback_chain_witness :
    generateDevlog demoLoader =
      (Except.ok ⟨"shipped the thing", "llama2", "llama"⟩,
        "openai" :: (["claude"] ++ ["llama"])) :=
  (generateDevlog_fallback_chain demoLoader).2.1 "rate limited"
    [fallbackOneProvider] fallbackTwoProvider [] ⟨"shipped the thing", "llama2", "llama"⟩
    rfl rfl
    (fun q hq => ⟨"overloaded", by rw [List.mem_singleton.mp hq]; rfl⟩)
    rfl

/-- Job type (jobs/types.ts `JobType`). -/
inductive JobType
  | daily
  | weekly
  | manual
deriving DecidableEq, Repr

/-- Job status (jobs/types.ts `JobStatus`). -/
inductive JobStatus
  | pending
  | running
  | completed
  | failed
  | cancelled
deriving DecidableEq, Repr

/-- Job configuration snapshot (jobs/types.ts `JobConfig`). -/
structure JobConfig where
  type : JobType
  projectName : String
  since : Option String
  dryRun : Option Bool
  platforms : Option (List String)
deriving DecidableEq, Repr

/-- Job result (jobs/types.ts `JobResult`); `duration` is an integer
millisecond difference computed by the queue. -/
structure JobResult where
  success : Bool
  commits : Nat
  summary : Option String
  published : Nat
  platforms : List String
  error : Option String
  duration : Option Int
deriving DecidableEq, Repr

/-- A job record (jobs/types.ts `Job`); the AbortController is
represented by the boolean `aborted` state of its signal. -/
structure Job where
  id : String
  type : JobType
  status : JobStatus
  config : JobConfig
  createdAt : Int
  startedAt : Option Int
  completedAt : Option Int
  result : Option JobResult
  error : Option String
  aborted : Bool
deriving DecidableEq, Repr

/-- One fetched commit (git/git.ts `CommitInfo`), as the runner sees
it. -/
structure Commit where
  hash : String
  message : String
  author : String
  date : String
deriving DecidableEq, Repr

/-- The slice of the loaded configuration the runner's pipeline
consumes: the project name and the publishers section. -/
structure IndieLogConfig where
  projectName : String
  publishers : PublishersConfig
deriving DecidableEq, Repr

/-- runner.ts `getSinceForJobType`: a caller-supplied non-empty `since`
wins (JavaScript truthiness: the empty string does not count);
otherwise daily maps to "today", weekly to "7 days ago", and manual to
none (the collaborator default). -/
def getSinceForJobType (t : JobType) (customSince : Option String) : Option String :=
  match customSince with
  | some s =>
      if s = "" then
        match t with
        | JobType.daily => some "today"
        | JobType.weekly => some "7 days ago"
        | JobType.manual => none
      else some s
  | none =>
      match t with
      | JobType.daily => some "today"
      | JobType.weekly => some "7 days ago"
      | JobType.manual => none

/-- The external collaborators of one `executeJob` run: config loader,
git fetcher, AI summarizer, the three platform adapters, and the
cancellation flag. The flag is mutable external state sampled several
times during the run, so it is embedded as a function of the read
index: `abortRead k` is the value observed by the k-th read of
`job.cancellationToken.signal.aborted`. -/
structure RunnerEnv where
  configLoad : Except String IndieLogConfig
  fetchCommits : Option String → Except String (List Commit)
  generateSummary : List Commit → Except String String
  xA : PlatformAdapter
  redditA : PlatformAdapter
  blueskyA : PlatformAdapter
  abortRead : Nat → Bool

/-- The try-block of runner.ts `executeJob` (lines 33-94). On error it
returns the error message together with the number of abort-flag reads
already performed, so that the catch handler's own read of the flag
(line 99) observes the next read index. The zero-commit case and the
full pipeline case both produce a success result; the published
platforms are ALL platforms returned by `publishAll` (line 79 maps
every result, successful or not, to its platform). -/
def runBody (env : RunnerEnv) (job : Job) : Except (String × Nat) JobResult :=
  match env.configLoad with
  | Except.error e => Except.error (e, 0)
  | Except.ok config =>
    if env.abortRead 0 then Except.error ("Job was cancelled", 1)
    else
      match env.fetchCommits (getSinceForJobType job.type job.config.since) with
      | Except.error e => Except.error (e, 1)
      | Except.ok commits =>
        if env.abortRead 1 then Except.error ("Job was cancelled", 2)
        else if commits.length = 0 then
          Except.ok ⟨true, 0, none, 0, [], none, none⟩
        else
          match env.generateSummary commits with
          | Except.error e => Except.error (e, 2)
          | Except.ok summary =>
            if env.abortRead 2 then Except.error ("Job was cancelled", 3)
            else
              let publishedPlatforms :=
                if job.config.dryRun.getD false then ([] : List String)
                else
                  (publishAll (loadPublishers config.publishers env.xA env.redditA env.blueskyA)).map
                    PublishResult.platform
              Except.ok ⟨true, commits.length, some summary,
                publishedPlatforms.length, publishedPlatforms, none, none⟩

/-- The cancellation test of runner.ts line 99:
`errorMessage.includes('cancelled')`. -/
def isCancelledMessage (msg : String) : Bool :=
  decide ("cancelled".toList <:+: msg.toList)

/-- runner.ts `executeJob`: runs the pipeline body and, on error,
routes to `cancelled` when the message mentions cancellation or the
abort flag reads true, else to `failed`. The second component is the
terminal status passed to `queue.updateJobStatus`. -/
def executeJob (env : RunnerEnv) (job : Job) : JobResult × JobStatus :=
  match runBody env job with
  | Except.ok r => (r, JobStatus.completed)
  | Except.error (msg, k) =>
      if isCancelledMessage msg || env.abortRead k then
        (⟨false, 0, none, 0, [], some msg, none⟩, JobStatus.cancelled)
      else
        (⟨false, 0, none, 0, [], some msg, none⟩, JobStatus.failed)

theorem runBody_zero_commits (env : RunnerEnv) (job : Job) (cfg : IndieLogConfig)
    (hc : env.configLoad = Except.ok cfg)
    (h0 : env.abortRead 0 = false)
    (hf : env.fetchCommits (getSinceForJobType job.type job.config.since) = Except.ok [])
    (h1 : env.abortRead 1 = false) :
    runBody env job = Except.ok ⟨true, 0, none, 0, [], none, none⟩ := by
  simp [runBody, hc, h0, hf, h1]

/-- C8: a fetch that returns zero commits is not an error — executeJob
returns success with commits:0, published:0, platforms:[], requests the
`completed` (not `failed`) status, and performs no generation or
publishing: the run's outcome is unchanged under arbitrary replacement
of the summarizer and of all three platform adapters. -/
theorem executeJob_zero_commits (env : RunnerEnv) (job : Job) (cfg : IndieLogConfig)
    (hc : env.configLoad = Except.ok cfg)
    (h0 : env.abortRead 0 = false)
    (hf : env.fetchCommits (getSinceForJobType job.type job.config.since) = Except.ok [])
    (h1 : env.abortRead 1 = false) :
    executeJob env job = (⟨true, 0, none, 0, [], none, none⟩, JobStatus.completed) ∧
    ∀ (g : List Commit → Except String String) (xA2 rA2 bA2 : PlatformAdapter),
      executeJob { env with generateSummary := g, xA := xA2, redditA := rA2, blueskyA := bA2 } job =
        (⟨true, 0, none, 0, [], none, none⟩, JobStatus.completed) := by
  constructor
  · rw [executeJob, runBody_zero_commits env job cfg hc h0 hf h1]
  · intro g xA2 rA2 bA2
    have hz := runBody_zero_commits
      { env with generateSummary := g, xA := xA2, redditA := rA2, blueskyA := bA2 }
      job cfg hc h0 hf h1
    rw [executeJob, hz]

theorem runBody_pipeline (env : RunnerEnv) (job : Job) (cfg : IndieLogConfig)
    (commits : List Commit) (summary : String)
    (hc : env.configLoad = Except.ok cfg)
    (h0 : env.abortRead 0 = false)
    (hf : env.fetchCommits (getSinceForJobType job.type job.config.since) = Except.ok commits)
    (h1 : env.abortRead 1 = false)
    (hne : commits ≠ [])
    (hg : env.generateSummary commits = Except.ok summary)
    (h2 : env.abortRead 2 = false) :
    runBody env job =
      Except.ok ⟨true, commits.length, some summary,
        (if job.config.dryRun.getD false then [] else
          (publishAll (loadPublishers cfg.publishers env.xA env.redditA env.blueskyA)).map
            PublishResult.platform).length,
        (if job.config.dryRun.getD false then [] else
          (publishAll (loadPublishers cfg.publishers env.xA env.redditA env.blueskyA)).map
            PublishResult.platform),
        none, none⟩ := by
  have hlen : ¬ commits.length = 0 := by simpa using hne
  simp [runBody, hc, h0, hf, h1, hlen, hg, h2]

/-- C9: with dryRun set, commits present and generation succeeding,
executeJob reports published:0, platforms:[] and never consults the
publisher fan-out — the outcome is unchanged under arbitrary
replacement of all three platform adapters, however many publishers the
loaded configuration enables. -/
theorem executeJob_dry_run (env : RunnerEnv) (job : Job) (cfg : IndieLogConfig)
    (commits : List Commit) (summary : String)
    (hdry : job.config.dryRun = some true)
    (hc : env.configLoad = Except.ok cfg)
    (h0 : env.abortRead 0 = false)
    (hf : env.fetchCommits (getSinceForJobType job.type job.config.since) = Except.ok commits)
    (h1 : env.abortRead 1 = false)
    (hne : commits ≠ [])
    (hg : env.generateSummary commits = Except.ok summary)
    (h2 : env.abortRead 2 = false) :
    executeJob env job =
      (⟨true, commits.length, some summary, 0, [], none, none⟩, JobStatus.completed) ∧
    ∀ (xA2 rA2 bA2 : PlatformAdapter),
      executeJob { env with xA := xA2, redditA := rA2, blueskyA := bA2 } job =
        (⟨true, commits.length, some summary, 0, [], none, none⟩, JobStatus.completed) := by
  constructor
  · rw [executeJob, runBody_pipeline env job cfg commits summary hc h0 hf h1 hne hg h2]
    simp [hdry]
  · intro xA2 rA2 bA2
    have hp := runBody_pipeline { env with xA := xA2, redditA := rA2, blueskyA := bA2 }
      job cfg commits summary hc h0 hf h1 hne hg h2
    rw [executeJob, hp]
    simp [hdry]

theorem runBody_ok_success (env : RunnerEnv) (job : Job) (r : JobResult)
    (h : runBody env job = Except.ok r) : r.success = true ∧ r.error = none := by
  unfold runBody at h
  repeat' split at h
  all_goals first
    | exact Except.noConfusion h
    | (injection h with h2; subst h2; exact ⟨rfl, rfl⟩)

/-- C10: executeJob is total over collaborator failures: for every
environment of collaborator outcomes and every job it returns a
JobResult; either the run succeeded (success:true, no error, status
`completed`), or it failed with the error message attached and the
requested status is `cancelled` exactly when the message mentions
cancellation or the abort flag reads true at the catch handler, and
`failed` otherwise — in every case a terminal status. -/
theorem executeJob_total (env : RunnerEnv) (job : Job) :
    ((executeJob env job).1.success = true ∧ (executeJob env job).1.error = none ∧
      (executeJob env job).2 = JobStatus.completed) ∨
    ((executeJob env job).1.success = false ∧
      (∃ msg k, runBody env job = Except.error (msg, k) ∧
        (executeJob env job).1.error = some msg ∧
        (executeJob env job).2 =
          (if isCancelledMessage msg || env.abortRead k then JobStatus.cancelled
           else JobStatus.failed)) ∧
      ((executeJob env job).2 = JobStatus.failed ∨
        (executeJob env job).2 = JobStatus.cancelled)) := by
  rcases hb : runBody env job with ⟨msg, k⟩ | r
  · right
    refine ⟨?_, ⟨msg, k, rfl, ?_, ?_⟩, ?_⟩ <;> rw [executeJob, hb] <;> dsimp only
    · split <;> rfl
    · split <;> rfl
    · split <;> rfl
    · split
      · exact Or.inr rfl
      · exact Or.inl rfl
  · left
    have hs := runBody_ok_success env job r hb
    refine ⟨?_, ?_, ?_⟩ <;> rw [executeJob, hb] <;> dsimp only <;>
      first
      | exact hs.1
      | exact hs.2

/-- Commits of the failing-publish pipeline scenario. -/
def pipelineCommits : List Commit :=
  [⟨"a1b2c3", "feat: add retry", "kaito", "2024-11-01"⟩,
   ⟨"d4e5f6", "fix: handle empty window", "kaito", "2024-11-01"⟩,
   ⟨"0718aa", "docs: update readme", "kaito", "2024-11-01"⟩]

/-- Loaded configuration of the failing-publish scenario: only X is
enabled, with maxRetries 0 so its always-failing adapter exhausts after
one attempt. -/
def failPubCfg : IndieLogConfig :=
  ⟨"IndieLog", ⟨some ⟨true, some 0, some 0⟩, none, none⟩⟩

/-- Collaborators of the failing-publish scenario: 3 commits fetched,
generation succeeding, the X adapter failing every attempt, no
cancellation. -/
def failPubEnv : RunnerEnv :=
  { configLoad := Except.ok failPubCfg,
    fetchCommits := fun _ => Except.ok pipelineCommits,
    generateSummary := fun _ => Except.ok "Day 12: retries and fixes",
    xA := xFailAdapter, redditA := redditDemoAdapter, blueskyA := blueskyOkAdapter,
    abortRead := fun _ => false }

/-- The job of the failing-publish scenario (manual, not a dry run). -/
def failPubJob : Job :=
  { id := "job-1", type := JobType.manual, status := JobStatus.pending,
    config := ⟨JobType.manual, "IndieLog", none, none, none⟩,
    createdAt := 0, startedAt := none, completedAt := none,
    result := none, error := none, aborted := false }

/-- C1 fails on the code: in a run whose single enabled platform (X)
fails its publish — publishAll returns exactly one result and it has
success:false — executeJob still reports published:1 and
platforms:["X"], because runner.ts line 79 maps every publishAll result
to its platform, successful or not (contradicting the inline comment on
line 78 that publishAll returns only successful results, and the spec's
"collect the platforms that succeeded"). -/
theorem executeJob_counts_failed_publish :
    executeJob failPubEnv failPubJob =
      (⟨true, 3, some "Day 12: retries and fixes", 1, ["X"], none, none⟩,
        JobStatus.completed) ∧
    publishAll (loadPublishers failPubCfg.publishers failPubEnv.xA failPubEnv.redditA
        failPubEnv.blueskyA) =
      [⟨false, "X", none, some "x down", some 0⟩] :=
  ⟨rfl, rfl⟩

/-- The terminal-status test the queue writes inline
(`status === 'completed' || status === 'failed' || status === 'cancelled'`). -/
def isTerminal : JobStatus → Bool
  | JobStatus.completed => true
  | JobStatus.failed => true
  | JobStatus.cancelled => true
  | _ => false

/-- The queue state (queue.ts `JobQueue`): the job map in insertion
order, the running-job id set, and the concurrency bound. -/
structure JobQueue where
  jobs : List Job
  runningJobs : List String
  maxConcurrent : Nat
deriving DecidableEq, Repr

/-- `this.jobs.get(id)`: the job stored under an id. -/
def findJob (jobs : List Job) (id : String) : Option Job :=
  jobs.find? (fun j => j.id == id)

/-- `this.jobs.set(job.id, job)`: replace in place when the key exists,
else append (JavaScript Map insertion-order semantics). -/
def mapSet (jobs : List Job) (job : Job) : List Job :=
  if jobs.any (fun j => j.id == job.id) then
    jobs.map (fun j => if j.id == job.id then job else j)
  else jobs ++ [job]

/-- In-place mutation of the job stored under an id. -/
def setJob (jobs : List Job) (id : String) (f : Job → Job) : List Job :=
  jobs.map (fun j => if j.id == id then f j else j)

/-- The per-job mutation of queue.ts `updateJobStatus` (lines 125-144):
the status is assigned unconditionally; entering `running` records
startedAt; entering a terminal status records completedAt, stores the
result (with duration when startedAt is present) and the error. -/
def applyStatus (now : Int) (status : JobStatus) (result : Option JobResult)
    (err : Option String) (job : Job) : Job :=
  let job1 := { job with status := status }
  if status = JobStatus.running then
    { job1 with startedAt := some now }
  else if isTerminal status then
    let job2 := { job1 with completedAt := some now }
    let job3 :=
      match result with
      | some r =>
          let stored :=
            match job2.startedAt with
            | some st => { r with duration := some (now - st) }
            | none => r
          { job2 with result := some stored }
      | none => job2
    match err with
    | some e => { job3 with error := some e }
    | none => job3
  else job1

/-- queue.ts `updateJobStatus`: no-op when the id is unknown; otherwise
mutates the stored job via `applyStatus` and maintains the running-job
set (added on `running`, deleted on any terminal status). -/
def updateJobStatus (q : JobQueue) (id : String) (status : JobStatus)
    (result : Option JobResult) (err : Option String) (now : Int) : JobQueue :=
  match findJob q.jobs id with
  | none => q
  | some _ =>
    { q with
      jobs := setJob q.jobs id (applyStatus now status result err),
      runningJobs :=
        if status = JobStatus.running then
          if q.runningJobs.contains id then q.runningJobs else q.runningJobs ++ [id]
        else if isTerminal status then
          q.runningJobs.filter (fun x => !(x == id))
        else q.runningJobs }

/-- queue.ts `cancelJob` (lines 152-172): false when the id is unknown
or the job is `completed` or `failed` (no other status is guarded);
otherwise it aborts the cancellation token, re-enters `updateJobStatus`
with `cancelled`, and returns true. -/
def cancelJob (q : JobQueue) (id : String) (now : Int) : JobQueue × Bool :=
  match findJob q.jobs id with
  | none => (q, false)
  | some job =>
    if job.status = JobStatus.completed ∨ job.status = JobStatus.failed then (q, false)
    else
      let q1 := { q with jobs := setJob q.jobs id (fun j => { j with aborted := true }) }
      (updateJobStatus q1 id JobStatus.cancelled none none now, true)

/-- queue.ts `createJob`: a fresh pending job with an unfired abort
signal, stored under its id (the id — `randomUUID()` in the source — is
external input here). -/
def createJob (q : JobQueue) (id : String) (t : JobType) (config : JobConfig)
    (now : Int) : JobQueue × Job :=
  let job : Job :=
    { id := id, type := t, status := JobStatus.pending, config := config,
      createdAt := now, startedAt := none, completedAt := none,
      result := none, error := none, aborted := false }
  ({ q with jobs := mapSet q.jobs job }, job)

/-- One externally invokable queue operation. -/
inductive QueueOp
  | create (id : String) (t : JobType) (config : JobConfig) (now : Int)
  | update (id : String) (status : JobStatus) (result : Option JobResult)
      (err : Option String) (now : Int)
  | cancel (id : String) (now : Int)

/-- Apply one queue operation to the queue state. -/
def applyOp (q : JobQueue) (op : QueueOp) : JobQueue :=
  match op with
  | QueueOp.create id t c now => (createJob q id t c now).1
  | QueueOp.update id st r e now => updateJobStatus q id st r e now
  | QueueOp.cancel id now => (cancelJob q id now).1

/-- Run a sequence of queue operations. -/
def runOps (q : JobQueue) (ops : List QueueOp) : JobQueue :=
  ops.foldl applyOp q

/-- The status stored for an id, when present. -/
def jobStatus (q : JobQueue) (id : String) : Option JobStatus :=
  (findJob q.jobs id).map Job.status

theorem applyStatus_id (now : Int) (status : JobStatus) (result : Option JobResult)
    (err : Option String) (job : Job) :
    (applyStatus now status result err job).id = job.id := by
  cases status <;> cases result <;> cases err <;> rfl

theorem applyStatus_status (now : Int) (status : JobStatus) (result : Option JobResult)
    (err : Option String) (job : Job) :
    (applyStatus now status result err job).status = status := by
  cases status <;> cases result <;> cases err <;> rfl

theorem applyStatus_aborted (now : Int) (status : JobStatus) (result : Option JobResult)
    (err : Option String) (job : Job) :
    (applyStatus now status result err job).aborted = job.aborted := by
  cases status <;> cases result <;> cases err <;> rfl

theorem findJob_setJob_self (jobs : List Job) (id : String) (f : Job → Job)
    (hf : ∀ j, (f j).id = j.id) :
    findJob (setJob jobs id f) id = (findJob jobs id).map f := by
  induction jobs with
  | nil => rfl
  | cons a l ih =>
    simp only [setJob, List.map_cons, findJob] at ih ⊢
    by_cases h : a.id = id
    · have e1 : List.find? (fun j => j.id == id)
          (f a :: List.map (fun j => if j.id == id then f j else j) l) = some (f a) :=
        List.find?_cons_of_pos _ (by simp [hf a, h])
      have e2 : List.find? (fun j => j.id == id) (a :: l) = some a :=
        List.find?_cons_of_pos _ (by simp [h])
      rw [if_pos (by simp [h] : (a.id == id) = true), e1, e2]
      rfl
    · have e1 : List.find? (fun j => j.id == id)
          (a :: List.map (fun j => if j.id == id then f j else j) l) =
          List.find? (fun j => j.id == id)
            (List.map (fun j => if j.id == id then f j else j) l) :=
        List.find?_cons_of_neg _ (by simp [h])
      have e2 : List.find? (fun j => j.id == id) (a :: l) =
          List.find? (fun j => j.id == id) l :=
        List.find?_cons_of_neg _ (by simp [h])
      rw [if_neg (by simp [h]), e1, e2]
      exact ih

theorem findJob_setJob_other (jobs : List Job) (tid id : String) (f : Job → Job)
    (hne : tid ≠ id) (hf : ∀ j, (f j).id = j.id) :
    findJob (setJob jobs tid f) id = findJob jobs id := by
  induction jobs with
  | nil => rfl
  | cons a l ih =>
    simp only [setJob, List.map_cons, findJob] at ih ⊢
    by_cases h : a.id = tid
    · have e1 : List.find? (fun j => j.id == id)
          (f a :: List.map (fun j => if j.id == tid then f j else j) l) =
          List.find? (fun j => j.id == id)
            (List.map (fun j => if j.id == tid then f j else j) l) :=
        List.find?_cons_of_neg _ (by simp [hf a, h, hne])
      have e2 : List.find? (fun j => j.id == id) (a :: l) =
          List.find? (fun j => j.id == id) l :=
        List.find?_cons_of_neg _ (by simp [h, hne])
      rw [if_pos (by simp [h] : (a.id == tid) = true), e1, e2]
      exact ih
    · by_cases h2 : a.id = id
      · have e1 : List.find? (fun j => j.id == id)
            (a :: List.map (fun j => if j.id == tid then f j else j) l) = some a :=
          List.find?_cons_of_pos _ (by simp [h2])
        have e2 : List.find? (fun j => j.id == id) (a :: l) = some a :=
          List.find?_cons_of_pos _ (by simp [h2])
        rw [if_neg (by simp [h]), e1, e2]
      · have e1 : List.find? (fun j => j.id == id)
            (a :: List.map (fun j => if j.id == tid then f j else j) l) =
            List.find? (fun j => j.id == id)
              (List.map (fun j => if j.id == tid then f j else j) l) :=
          List.find?_cons_of_neg _ (by simp [h2])
        have e2 : List.find? (fun j => j.id == id) (a :: l) =
            List.find? (fun j => j.id == id) l :=
          List.find?_cons_of_neg _ (by simp [h2])
        rw [if_neg (by simp [h]), e1, e2]
        exact ih

theorem findJob_elem_id (jobs : List Job) (id : String) (j : Job)
    (h : findJob jobs id = some j) : j.id = id := by
  have := List.find?_some h
  simpa using this

theorem updateJobStatus_findJob_self (q : JobQueue) (id : String) (st : JobStatus)
    (r : Option JobResult) (e : Option String) (now : Int) (j : Job)
    (hj : findJob q.jobs id = some j) :
    findJob (updateJobStatus q id st r e now).jobs id =
      some (applyStatus now st r e j) := by
  rw [updateJobStatus, hj]
  dsimp only
  rw [findJob_setJob_self q.jobs id _ (fun j2 => applyStatus_id now st r e j2), hj]
  rfl

theorem updateJobStatus_findJob_other (q : JobQueue) (uid id : String) (st : JobStatus)
    (r : Option JobResult) (e : Option String) (now : Int) (hne : uid ≠ id) :
    findJob (updateJobStatus q uid st r e now).jobs id = findJob q.jobs id := by
  rw [updateJobStatus]
  cases hfind : findJob q.jobs uid with
  | none => rfl
  | some j =>
    dsimp only
    exact findJob_setJob_other q.jobs uid id _ hne (fun j2 => applyStatus_id now st r e j2)

theorem findJob_replace_other (jobs : List Job) (job : Job) (id : String)
    (hne : job.id ≠ id) :
    findJob (jobs.map (fun j => if j.id == job.id then job else j)) id =
      findJob jobs id := by
  induction jobs with
  | nil => rfl
  | cons a l ih =>
    simp only [List.map_cons, findJob] at ih ⊢
    by_cases h : a.id = job.id
    · have e1 : List.find? (fun j => j.id == id)
          (job :: List.map (fun j => if j.id == job.id then job else j) l) =
          List.find? (fun j => j.id == id)
            (List.map (fun j => if j.id == job.id then job else j) l) :=
        List.find?_cons_of_neg _ (by simp [hne])
      have e2 : List.find? (fun j => j.id == id) (a :: l) =
          List.find? (fun j => j.id == id) l :=
        List.find?_cons_of_neg _ (by simp [h, hne])
      rw [if_pos (by simp [h] : (a.id == job.id) = true), e1, e2]
      exact ih
    · by_cases h2 : a.id = id
      · have e1 : List.find? (fun j => j.id == id)
            (a :: List.map (fun j => if j.id == job.id then job else j) l) = some a :=
          List.find?_cons_of_pos _ (by simp [h2])
        have e2 : List.find? (fun j => j.id == id) (a :: l) = some a :=
          List.find?_cons_of_pos _ (by simp [h2])
        rw [if_neg (by simp [h]), e1, e2]
      · have e1 : List.find? (fun j => j.id == id)
            (a :: List.map (fun j => if j.id == job.id then job else j) l) =
            List.find? (fun j => j.id == id)
              (List.map (fun j => if j.id == job.id then job else j) l) :=
          List.find?_cons_of_neg _ (by simp [h2])
        have e2 : List.find? (fun j => j.id == id) (a :: l) =
            List.find? (fun j => j.id == id) l :=
          List.find?_cons_of_neg _ (by simp [h2])
        rw [if_neg (by simp [h]), e1, e2]
        exact ih

theorem findJob_append_other (jobs : List Job) (job : Job) (id : String)
    (hne : job.id ≠ id) :
    findJob (jobs ++ [job]) id = findJob jobs id := by
  induction jobs with
  | nil =>
    simp only [List.nil_append, findJob]
    rw [List.find?_cons_of_neg _ (by simp [hne])]
  | cons a l ih =>
    simp only [List.cons_append, findJob] at ih ⊢
    by_cases h : a.id = id
    · have e1 : List.find? (fun j => j.id == id) (a :: (l ++ [job])) = some a :=
        List.find?_cons_of_pos _ (by simp [h])
      have e2 : List.find? (fun j => j.id == id) (a :: l) = some a :=
        List.find?_cons_of_pos _ (by simp [h])
      rw [e1, e2]
    · have e1 : List.find? (fun j => j.id == id) (a :: (l ++ [job])) =
          List.find? (fun j => j.id == id) (l ++ [job]) :=
        List.find?_cons_of_neg _ (by simp [h])
      have e2 : List.find? (fun j => j.id == id) (a :: l) =
          List.find? (fun j => j.id == id) l :=
        List.find?_cons_of_neg _ (by simp [h])
      rw [e1, e2]
      exact ih

theorem findJob_mapSet_other (jobs : List Job) (job : Job) (id : String)
    (hne : job.id ≠ id) :
    findJob (mapSet jobs job) id = findJob jobs id := by
  rw [mapSet]
  split
  · exact findJob_replace_other jobs job id hne
  · exact findJob_append_other jobs job id hne

theorem cancelJob_findJob_other (q : JobQueue) (cid id : String) (now : Int)
    (hne : cid ≠ id) :
    findJob (cancelJob q cid now).1.jobs id = findJob q.jobs id := by
  rw [cancelJob]
  cases hfind : findJob q.jobs cid with
  | none => rfl
  | some j =>
    dsimp only
    split
    · rfl
    · rw [updateJobStatus_findJob_other _ cid id JobStatus.cancelled none none now hne]
      exact findJob_setJob_other q.jobs cid id (fun j2 => { j2 with aborted := true })
        hne (fun j2 => rfl)

/-- A job configuration used by the concrete queue scenarios. -/
def qcConfig : JobConfig := ⟨JobType.manual, "IndieLog", none, none, none⟩

/-- A job already in the `cancelled` state. -/
def cancelledJob : Job :=
  { id := "job-c", type := JobType.manual, status := JobStatus.cancelled,
    config := qcConfig, createdAt := 0, startedAt := some 1, completedAt := some 2,
    result := none, error := none, aborted := true }

/-- A queue holding only the already-cancelled job. -/
def cancelledQueue : JobQueue := ⟨[cancelledJob], [], 1⟩

/-- Counterexample to C3: `cancelled` is a terminal state, yet
`cancelJob` on an already-cancelled job returns true, not false — the
guard at queue.ts line 159 only checks `completed` and `failed`. The
status does remain `cancelled`. -/
theorem cancelJob_cancelled_returns_true :
    isTerminal cancelledJob.status = true ∧
    (cancelJob cancelledQueue "job-c" 5).2 = true ∧
    jobStatus (cancelJob cancelledQueue "job-c" 5).1 "job-c" =
      some JobStatus.cancelled := by
  refine ⟨rfl, ?_, ?_⟩ <;> rfl

/-- C3 as amended: `cancelJob` returns false and leaves the queue
unchanged when the id is unknown or the job is `completed` or `failed`;
from any other status — `pending`, `running`, but also the terminal
`cancelled`, which the guard does not check — it triggers the
cancellation handle, sets the status to `cancelled` (a no-op change for
an already-cancelled job), and returns true. -/
theorem cancelJob_behavior (q : JobQueue) (id : String) (now : Int) :
    (findJob q.jobs id = none → cancelJob q id now = (q, false)) ∧
    (∀ j, findJob q.jobs id = some j →
      ((j.status = JobStatus.completed ∨ j.status = JobStatus.failed) →
        cancelJob q id now = (q, false)) ∧
      (¬(j.status = JobStatus.completed ∨ j.status = JobStatus.failed) →
        (cancelJob q id now).2 = true ∧
        ∃ j2, findJob (cancelJob q id now).1.jobs id = some j2 ∧
          j2.status = JobStatus.cancelled ∧ j2.aborted = true)) := by
  constructor
  · intro h
    rw [cancelJob, h]
  · intro j hj
    constructor
    · intro hterm
      rw [cancelJob, hj]
      dsimp only
      rw [if_pos hterm]
    · intro hnterm
      constructor
      · rw [cancelJob, hj]
        dsimp only
        rw [if_neg hnterm]
      · rw [cancelJob, hj]
        dsimp only
        rw [if_neg hnterm]
        dsimp only
        have hq1 : findJob (setJob q.jobs id (fun j2 => { j2 with aborted := true })) id =
            some { j with aborted := true } := by
          rw [findJob_setJob_self q.jobs id (fun j2 => { j2 with aborted := true })
            (fun j2 => rfl), hj]
          rfl
        refine ⟨applyStatus now JobStatus.cancelled none none { j with aborted := true },
          ?_, ?_, ?_⟩
        · exact updateJobStatus_findJob_self _ id JobStatus.cancelled none none now _ hq1
        · rw [applyStatus_status]
        · rw [applyStatus_aborted]

/-- A job in the `running` state. -/
def runningJob : Job :=
  { id := "job-r", type := JobType.daily, status := JobStatus.running,
    config := qcConfig, createdAt := 0, startedAt := some 1, completedAt := none,
    result := none, error := none, aborted := false }

/-- A queue holding the running job. -/
def runningQueue : JobQueue := ⟨[runningJob], ["job-r"], 1⟩

/-- Witness for C3 as amended: cancelling the running job aborts its
token, sets its status to `cancelled` and returns true. -/
theorem cancelJob_behavior_witness :
    (cancelJob runningQueue "job-r" 7).2 = true ∧
    ∃ j2, findJob (cancelJob runningQueue "job-r" 7).1.jobs "job-r" = some j2 ∧
      j2.status = JobStatus.cancelled ∧ j2.aborted = true :=
  ((cancelJob_behavior runningQueue "job-r" 7).2 runningJob rfl).2 (by decide)

/-- Which queue operations can move the job stored under `id` out of a
terminal state: only a `create` reusing the id (the map entry is
overwritten with a fresh pending job) or an `update` on the id
requesting a non-terminal status. -/
def opPreservesTerminal (id : String) : QueueOp → Bool
  | QueueOp.create cid _ _ _ => !(cid == id)
  | QueueOp.update uid st _ _ _ => !(uid == id) || isTerminal st
  | QueueOp.cancel _ _ => true

theorem applyOp_preserves_terminal (q : JobQueue) (op : QueueOp) (id : String)
    (hop : opPreservesTerminal id op = true)
    (hterm : ∃ j, findJob q.jobs id = some j ∧ isTerminal j.status = true) :
    ∃ j2, findJob (applyOp q op).jobs id = some j2 ∧ isTerminal j2.status = true := by
  obtain ⟨j, hj, hterm2⟩ := hterm
  cases op with
  | create cid t c now =>
    have hne : cid ≠ id := by simpa [opPreservesTerminal] using hop
    refine ⟨j, ?_, hterm2⟩
    rw [applyOp]
    dsimp only [createJob]
    rw [findJob_mapSet_other q.jobs _ id hne]
    exact hj
  | update uid st r e now =>
    by_cases hne : uid = id
    · subst hne
      have hst : isTerminal st = true := by simpa [opPreservesTerminal] using hop
      refine ⟨applyStatus now st r e j, ?_, ?_⟩
      · rw [applyOp]
        exact updateJobStatus_findJob_self q uid st r e now j hj
      · rw [applyStatus_status]
        exact hst
    · refine ⟨j, ?_, hterm2⟩
      rw [applyOp, updateJobStatus_findJob_other q uid id st r e now hne]
      exact hj
  | cancel cid now =>
    by_cases hne : cid = id
    · subst hne
      rw [applyOp, cancelJob, hj]
      dsimp only
      by_cases hcf : j.status = JobStatus.completed ∨ j.status = JobStatus.failed
      · rw [if_pos hcf]
        exact ⟨j, hj, hterm2⟩
      · rw [if_neg hcf]
        dsimp only
        have hq1 : findJob (setJob q.jobs cid (fun j2 => { j2 with aborted := true })) cid =
            some { j with aborted := true } := by
          rw [findJob_setJob_self q.jobs cid (fun j2 => { j2 with aborted := true })
            (fun j2 => rfl), hj]
          rfl
        refine ⟨applyStatus now JobStatus.cancelled none none { j with aborted := true },
          ?_, ?_⟩
        · exact updateJobStatus_findJob_self _ cid JobStatus.cancelled none none now _ hq1
        · rw [applyStatus_status]
          rfl
    · refine ⟨j, ?_, hterm2⟩
      rw [applyOp, cancelJob_findJob_other q cid id now hne]
      exact hj

/-- The empty queue with the default concurrency bound 1. -/
def q0 : JobQueue := ⟨[], [], 1⟩

/-- Create a job, start it, complete it. -/
def completedRun : List QueueOp :=
  [QueueOp.create "j" JobType.manual qcConfig 0,
   QueueOp.update "j" JobStatus.running none none 1,
   QueueOp.update "j" JobStatus.completed (some ⟨true, 2, none, 0, [], none, none⟩) none 2]

/-- Counterexample to C4: after a job reaches the terminal `completed`
state, a further `updateJobStatus` call requesting `pending` moves it
back to `pending` — queue.ts line 125 assigns the requested status with
no transition guard. -/
theorem updateJobStatus_reenters_pending :
    (jobStatus (runOps q0 completedRun) "j").map isTerminal = some true ∧
    jobStatus (applyOp (runOps q0 completedRun)
        (QueueOp.update "j" JobStatus.pending none none 3)) "j" =
      some JobStatus.pending := by
  refine ⟨?_, ?_⟩ <;> rfl

/-- C4 as amended: the queue does not enforce the monotonic state
machine; `updateJobStatus` assigns any requested status unconditionally,
so a terminal job re-enters `pending` or `running` whenever
`updateJobStatus` is invoked with that status on its id (and `createJob`
reusing an existing id overwrites the entry with a fresh pending job).
Monotonicity does hold for every operation sequence free of those two
cases: once a job is terminal, any sequence of createJob calls for other
ids, cancelJob calls, and updateJobStatus calls that target other ids or
request terminal statuses leaves it in a terminal state. -/
theorem terminal_status_preserved (ops : List QueueOp) (q : JobQueue) (id : String)
    (hterm : ∃ j, findJob q.jobs id = some j ∧ isTerminal j.status = true)
    (hops : ∀ op ∈ ops, opPreservesTerminal id op = true) :
    ∃ j2, findJob (runOps q ops).jobs id = some j2 ∧ isTerminal j2.status = true := by
  induction ops generalizing q with
  | nil => exact hterm
  | cons op rest ih =>
    rw [runOps, List.foldl_cons]
    exact ih (applyOp q op)
      (applyOp_preserves_terminal q op id (hops op (List.mem_cons_self op rest)) hterm)
      (fun op2 h2 => hops op2 (List.mem_cons_of_mem op h2))

/-- A job already in the terminal `completed` state. -/
def termJob : Job :=
  { id := "job-t", type := JobType.manual, status := JobStatus.completed,
    config := qcConfig, createdAt := 0, startedAt := none, completedAt := some 2,
    result := none, error := none, aborted := false }

/-- A queue holding the completed job. -/
def termQueue : JobQueue := ⟨[termJob], [], 1⟩

/-- Witness for C4 as amended: a cancel and a terminal-status update on
the completed job leave it terminal. -/
theorem terminal_status_preserved_witness :
    ∃ j2, findJob (runOps termQueue
        [QueueOp.cancel "job-t" 9,
         QueueOp.update "job-t" JobStatus.failed none none 10]).jobs "job-t" =
        some j2 ∧ isTerminal j2.status = true :=
  terminal_status_preserved
    [QueueOp.cancel "job-t" 9, QueueOp.update "job-t" JobStatus.failed none none 10]
    termQueue "job-t" ⟨termJob, rfl, rfl⟩ (by decide)

/-- Configuration for the zero-commit scenario. -/
def zeroCommitsCfg : IndieLogConfig := ⟨"IndieLog", ⟨none, none, none⟩⟩

/-- Collaborators for the zero-commit scenario: the fetch returns no
commits; the summarizer would fail if it were ever consulted. -/
def zeroCommitsEnv : RunnerEnv :=
  { configLoad := Except.ok zeroCommitsCfg,
    fetchCommits := fun _ => Except.ok [],
    generateSummary := fun _ => Except.error "should not be called",
    xA := ⟨"X Publisher", "X", true, fun _ => Except.ok "https://x.example/9"⟩,
    redditA := ⟨"Reddit Publisher", "Reddit", false, fun _ => Except.error "no creds"⟩,
    blueskyA := ⟨"Bluesky Publisher", "Bluesky", true, fun _ => Except.ok "https://bsky.example/9"⟩,
    abortRead := fun _ => false }

/-- The daily job of the zero-commit scenario. -/
def zeroCommitsJob : Job :=
  { id := "job-z", type := JobType.daily, status := JobStatus.pending,
    config := ⟨JobType.daily, "IndieLog", none, none, none⟩,
    createdAt := 0, startedAt := none, completedAt := none,
    result := none, error := none, aborted := false }

/-- Witness for C8: the zero-commit scenario yields the successful
empty result and the `completed` status. -/
theorem executeJob_zero_commits_witness :
    executeJob zeroCommitsEnv zeroCommitsJob =
      (⟨true, 0, none, 0, [], none, none⟩, JobStatus.completed) :=
  (executeJob_zero_commits zeroCommitsEnv zeroCommitsJob zeroCommitsCfg rfl rfl rfl rfl).1

/-- Configuration for the dry-run scenario: X is enabled with valid
credentials, so a real run would publish. -/
def dryRunCfg : IndieLogConfig := ⟨"IndieLog", ⟨some ⟨true, some 3, some 1000⟩, none, none⟩⟩

/-- The two commits of the dry-run scenario. -/
def dryRunCommits : List Commit :=
  [⟨"10ab", "feat: preview mode", "kaito", "2024-11-02"⟩,
   ⟨"20cd", "chore: bump deps", "kaito", "2024-11-02"⟩]

/-- Collaborators for the dry-run scenario, with an always-succeeding
X adapter that a non-dry run would have used. -/
def dryRunEnv : RunnerEnv :=
  { configLoad := Except.ok dryRunCfg,
    fetchCommits := fun _ => Except.ok dryRunCommits,
    generateSummary := fun _ => Except.ok "dry run post",
    xA := ⟨"X Publisher", "X", true, fun _ => Except.ok "https://x.example/dry"⟩,
    redditA := ⟨"Reddit Publisher", "Reddit", true, fun _ => Except.ok "https://reddit.example/dry"⟩,
    blueskyA := ⟨"Bluesky Publisher", "Bluesky", true, fun _ => Except.ok "https://bsky.example/dry"⟩,
    abortRead := fun _ => false }

/-- The dry-run job. -/
def dryRunJob : Job :=
  { id := "job-d", type := JobType.daily, status := JobStatus.pending,
    config := ⟨JobType.daily, "IndieLog", none, some true, none⟩,
    createdAt := 0, startedAt := none, completedAt := none,
    result := none, error := none, aborted := false }

/-- Witness for C9: the dry-run scenario reports published:0 and
platforms:[] although an enabled, succeeding publisher is configured. -/
theorem executeJob_dry_run_witness :
    executeJob dryRunEnv dryRunJob =
      (⟨true, dryRunCommits.length, some "dry run post", 0, [], none, none⟩,
        JobStatus.completed) :=
  (executeJob_dry_run dryRunEnv dryRunJob dryRunCfg dryRunCommits "dry run post"
    rfl rfl rfl rfl rfl (by decide) rfl rfl).1

end IndieLog
